import Mathlib

/-!
Verification of the bolig-dashboard data pipeline (src/generate_dashboard.py).

The development shallowly embeds the core normalization/aggregation pipeline:
`find_column`, `parse_city_from_handelsnavn`, `geocode_address`,
`estimate_rooms`, the rental pipeline `process_leje_data` (from the
standardized table onward) and the ownership pipeline `process_ejer_data`
(from the merged/standardized table onward), together with the aggregate
statistics both pipelines compute.

Modelling conventions:
- pandas cells that may be NaN are `Option` values; a DataFrame is a list of
  row structures (plus explicit flags for column presence where the source
  tests `'col' in df.columns`).
- Python floats are modelled as exact rationals; `int(x)` (truncation toward
  zero) is `pyInt`.
- Python `str.split(sep)` (keeping empty pieces) and `str.split()`
  (whitespace, dropping empty pieces) are modelled on the character list of
  the string, as is `str.strip()` and case-insensitive substring search
  (`key.lower() in address.lower()`; case folding is per-character).
-/

/-- Python `int(x)` on a float: truncation toward zero. -/
def pyInt (q : ℚ) : ℤ := if 0 ≤ q then ⌊q⌋ else ⌈q⌉

/-- Python `s.split(sep)` on the character list: splits at every separator
character, keeping empty segments; the empty string yields one empty
segment, so the number of segments is always (number of separators) + 1. -/
def splitChars (p : Char → Bool) : List Char → List (List Char)
  | [] => [[]]
  | c :: cs =>
    let r := splitChars p cs
    if p c then [] :: r
    else
      match r with
      | [] => [[c]]
      | h :: t => (c :: h) :: t

/-- Python `s.strip()`: drop whitespace from both ends. -/
def trimChars (l : List Char) : List Char :=
  ((l.dropWhile Char.isWhitespace).reverse.dropWhile Char.isWhitespace).reverse

/-- Python `s.split()` with no separator: whitespace split, dropping empty
pieces. -/
def whitespaceSplit (l : List Char) : List (List Char) :=
  (splitChars Char.isWhitespace l).filter (fun w => w ≠ [])

/-- `parse_city_from_handelsnavn` (src/generate_dashboard.py lines 27-37):
extracts the city from a trade name of shape `Adresse, Postnr By`.  A missing
(NaN) input, fewer than two comma-separated parts, or at most one word in the
trailing part yields the fallback string `Ukendt`; otherwise the words of the
trailing part after the first (the postal code) are joined with spaces. -/
def parse_city_from_handelsnavn (handelsnavn : Option String) : String :=
  match handelsnavn with
  | none => "Ukendt"
  | some s =>
    let parts := splitChars (fun c => c == ',') s.data
    if 2 ≤ parts.length then
      let lastPart := trimChars (parts.getLastD [])
      let words := whitespaceSplit lastPart
      if 1 < words.length then
        String.mk (List.intercalate [' '] words.tail)
      else "Ukendt"
    else "Ukendt"

/-- Per-character lower-casing of a string, modelling Python `str.lower()`
for the purposes of the known-address table (all upper-case letters appearing
in the table's keys are ASCII). -/
def lowerStr (s : String) : List Char := s.data.map Char.toLower

/-- `needle in hay` for character lists: some suffix of `hay` starts with
`needle`. -/
def containsSub (hay nee : List Char) : Bool :=
  (List.range (hay.length + 1)).any (fun i => nee.isPrefixOf (hay.drop i))

/-- Python `known_addr.lower() in address.lower()`. -/
def substr_ci (known_addr address : String) : Bool :=
  containsSub (lowerStr address) (lowerStr known_addr)

/-- The fixed known-address table of `geocode_address`
(src/generate_dashboard.py lines 41-54), in declaration order (Python dicts
preserve insertion order). -/
def known_addresses : List (String × (ℚ × ℚ)) :=
  [ (("Griffenfeldsgade 4B"), (55.68953163, 12.55545457)),
    (("Rådmandsgade 34"), (55.69978992, 12.55090717)),
    (("Rådmandsgade 36"), (55.69987455, 12.55113735)),
    (("Venøgade 24"), (55.71248034, 12.5644871)),
    (("Søllerødgade 17"), (55.69416374, 12.54659476)),
    (("Søllerødgade 15"), (55.69406004, 12.5467663)),
    (("Holger Danskes Vej 32"), (55.68712091, 12.53648974)),
    (("Blegdamsvej 30A"), (55.69266957, 12.56496568)),
    (("Bjelkes Allé 20"), (55.69307928, 12.54489447)),
    (("Bjelkes Allé 16"), (55.69284985, 12.54508262)),
    (("Alhambravej 15"), (55.67535625, 12.54444716)),
    (("Alhambravej 13"), (55.67517812, 12.54429515)) ]

/-- `geocode_address` (src/generate_dashboard.py lines 39-60): first
known-address entry whose key is a case-insensitive substring of the address;
fixed fallback coordinate when none matches. -/
def geocode_address (address : String) : ℚ × ℚ :=
  match known_addresses.find? (fun e => substr_ci e.1 address) with
  | some e => e.2
  | none => (55.6761, 12.5683)

/-- `find_column` failure data (src/generate_dashboard.py lines 404-416): the
raised `KeyError` message carries the candidate list, and the diagnostic
printed just before raising enumerates the table's columns in their original
order; together they form the failure report. -/
structure ColumnNotFoundError where
  candidates : List String
  columns : List String
  deriving DecidableEq, Repr

/-- `find_column` (src/generate_dashboard.py lines 404-416): return the first
candidate present among the table's columns, else fail with the candidate
list and the table's columns. -/
def find_column (cols : List String) (possible_names : List String) :
    Except ColumnNotFoundError String :=
  match possible_names.find? (fun n => cols.contains n) with
  | some n => Except.ok n
  | none => Except.error { candidates := possible_names, columns := cols }

/-- `estimate_rooms` (src/generate_dashboard.py lines 503-513): step-function
room estimate from area. -/
def estimate_rooms (area : ℚ) : ℕ :=
  if area < 50 then 2
  else if area < 75 then 3
  else if area < 100 then 4
  else if area < 125 then 5
  else 6

/-- The spec's description of city extraction (spec section 4.2), stated in
its own words: split on the last comma, fail to the sentinel on a missing
input, fewer than 2 comma-separated parts, or a trailing segment of at most
one word, otherwise discard the first token of the trailing segment and join
the rest.  Used only to compare the source function against the spec. -/
def extract_city_spec (trade_text : Option String) : String :=
  match trade_text with
  | none => "Ukendt"
  | some s =>
    let parts := splitChars (fun c => c == ',') s.data
    if parts.length < 2 then "Ukendt"
    else
      let trailing := whitespaceSplit (trimChars (parts.getLastD []))
      if trailing.length ≤ 1 then "Ukendt"
      else String.mk (List.intercalate [' '] trailing.tail)

/-- Helper: `find?` returns the marked element when everything before it in
the list fails the predicate and it satisfies the predicate. -/
theorem find?_first_of_split {α : Type} (p : α → Bool) (pre post : List α) (e : α)
    (hpre : ∀ x ∈ pre, p x = false) (he : p e = true) :
    (pre ++ e :: post).find? p = some e := by
  induction pre with
  | nil => simp [List.find?_cons, he]
  | cons a l ih =>
    have ha : p a = false := hpre a (List.mem_cons_self a l)
    simp only [List.cons_append, List.find?_cons, ha]
    exact ih (fun x hx => hpre x (List.mem_cons_of_mem a hx))

/-- C3: when no candidate name occurs among the table's columns,
`find_column` fails, and the failure report carries the full candidate list
together with the table's columns exactly, in their original order. -/
theorem spec_c3 (cols names : List String) (h : ∀ n ∈ names, n ∉ cols) :
    find_column cols names = Except.error { candidates := names, columns := cols } := by
  unfold find_column
  have hn : names.find? (fun n => cols.contains n) = none := by
    rw [List.find?_eq_none]
    intro x hx
    simpa using h x hx
  rw [hn]

/-- Witness for C3 at a concrete table and candidate list. -/
theorem spec_c3_witness :
    find_column [("Kolonne A"), ("Kolonne B")] [("Leje/m2"), ("Leje pr. m2")] =
      Except.error { candidates := [("Leje/m2"), ("Leje pr. m2")],
                     columns := [("Kolonne A"), ("Kolonne B")] } :=
  spec_c3 _ _ (by decide)

/-- C4: `find_column` returns the first candidate (in candidate-list order)
present among the table's columns, regardless of non-matching earlier
candidates. -/
theorem spec_c4 (cols pre post : List String) (n : String)
    (hpre : ∀ m ∈ pre, m ∉ cols) (hn : n ∈ cols) :
    find_column cols (pre ++ n :: post) = Except.ok n := by
  unfold find_column
  have hf : (pre ++ n :: post).find? (fun m => cols.contains m) = some n := by
    refine find?_first_of_split _ pre post n ?_ ?_
    · intro x hx
      simpa using hpre x hx
    · simpa using hn
  rw [hf]

/-- Witness for C4: candidates `Leje/m2`, `Leje pr. m2` against a table
containing only `Leje pr. m2` resolve to `Leje pr. m2`. -/
theorem spec_c4_witness :
    find_column [("Leje pr. m2")] ([("Leje/m2")] ++ ("Leje pr. m2") :: []) =
      Except.ok ("Leje pr. m2") :=
  spec_c4 _ _ _ _ (by decide) (by decide)

/-- C5 counterexample: on the input `x, 2200 Ukendt` the function returns the
sentinel string even though the input is present, has two comma-separated
parts, and its trailing segment has two words — so "returns the sentinel
exactly when input missing / fewer than 2 parts / at most 1 trailing word"
fails in the only-if direction. -/
theorem spec_c5_counterexample :
    parse_city_from_handelsnavn (some ("x, 2200 Ukendt")) = "Ukendt" ∧
    (some ("x, 2200 Ukendt") : Option String) ≠ none ∧
    2 ≤ (splitChars (fun c => c == ',') ("x, 2200 Ukendt").data).length ∧
    1 < (whitespaceSplit (trimChars
          ((splitChars (fun c => c == ',') ("x, 2200 Ukendt").data).getLastD []))).length := by
  refine ⟨by decide, by decide, by decide, by decide⟩

/-- C5 (amended): the source's city extraction agrees everywhere with the
spec's description (split on the last comma, drop the first trailing token,
join the rest, sentinel on missing input / fewer than 2 comma parts / at most
one trailing word), and the spec's concrete examples hold; the sentinel
characterisation is an implication, not an equivalence, because the joined
city words can themselves spell the sentinel text. -/
theorem spec_c5_amended :
    (∀ h : Option String, parse_city_from_handelsnavn h = extract_city_spec h) ∧
    parse_city_from_handelsnavn (some ("Griffenfeldsgade 4B, 2200 København N")) =
      "København N" ∧
    parse_city_from_handelsnavn (some ("SingleTokenOnly")) = "Ukendt" ∧
    parse_city_from_handelsnavn none = "Ukendt" := by
  refine ⟨?_, by decide, by decide, rfl⟩
  intro h
  match h with
  | none => rfl
  | some s =>
    simp only [parse_city_from_handelsnavn, extract_city_spec]
    split_ifs with h1 h2 h3 h4 <;> first | rfl | omega

/-- Witness for C5 (amended) at a concrete input. -/
theorem spec_c5_witness :
    parse_city_from_handelsnavn (some ("Blegdamsvej 30A, 2200 København N")) =
      extract_city_spec (some ("Blegdamsvej 30A, 2200 København N")) :=
  spec_c5_amended.1 _

/-- C7: the room-count estimate from area is the fixed step function
area<50→2, <75→3, <100→4, <125→5, else 6; it is monotone in the area and
boundary-exact. -/
theorem spec_c7 :
    (∀ a b : ℚ, a ≤ b → estimate_rooms a ≤ estimate_rooms b) ∧
    estimate_rooms 49 = 2 ∧ estimate_rooms 50 = 3 ∧
    estimate_rooms 74 = 3 ∧ estimate_rooms 75 = 4 ∧
    estimate_rooms 99 = 4 ∧ estimate_rooms 100 = 5 ∧
    estimate_rooms 124 = 5 ∧ estimate_rooms 125 = 6 := by
  refine ⟨?_, by decide, by decide, by decide, by decide, by decide, by decide,
    by decide, by decide⟩
  intro a b hab
  unfold estimate_rooms
  split_ifs <;> linarith

/-- Witness for C7's monotonicity at a concrete pair of areas. -/
theorem spec_c7_witness : estimate_rooms 49 ≤ estimate_rooms 50 :=
  spec_c7.1 49 50 (by norm_num)

/-- C6: `geocode_address` returns the coordinate of the first known-address
entry (in table-declaration order) whose key is a case-insensitive substring
of the address, the fixed fallback coordinate when no entry matches, and the
spec's two concrete examples hold. -/
theorem spec_c6 :
    (∀ (address : String) (pre post : List (String × (ℚ × ℚ))) (e : String × (ℚ × ℚ)),
        known_addresses = pre ++ e :: post →
        (∀ e' ∈ pre, substr_ci e'.1 address = false) →
        substr_ci e.1 address = true →
        geocode_address address = e.2) ∧
    (∀ address : String,
        (∀ e ∈ known_addresses, substr_ci e.1 address = false) →
        geocode_address address = (55.6761, 12.5683)) ∧
    geocode_address ("Griffenfeldsgade 4B, 2200 København N") = (55.68953163, 12.55545457) ∧
    geocode_address ("Unknown Street 99") = (55.6761, 12.5683) := by
  refine ⟨?_, ?_, rfl, rfl⟩
  · intro address pre post e hsplit hpre he
    unfold geocode_address
    rw [hsplit, find?_first_of_split _ pre post e hpre he]
  · intro address hnone
    unfold geocode_address
    have h : known_addresses.find? (fun e => substr_ci e.1 address) = none := by
      rw [List.find?_eq_none]
      intro e he
      simp [hnone e he]
    rw [h]

/-- Witness for C6's fallback branch at a concrete unknown address. -/
theorem spec_c6_witness : geocode_address ("zzz") = (55.6761, 12.5683) :=
  spec_c6.2.1 ("zzz") (by decide)

/-- pandas `Series.mean()`, over exact rationals. -/
def meanQ (l : List ℚ) : ℚ := l.sum / (l.length : ℚ)

/-- pandas `Series.median()`: sort ascending, middle element for odd length,
average of the two middle elements for even length. -/
def medianQ (l : List ℚ) : ℚ :=
  let s := List.insertionSort (fun a b : ℚ => a ≤ b) l
  let n := s.length
  if n % 2 = 1 then s.getD (n / 2) 0
  else (s.getD (n / 2 - 1) 0 + s.getD (n / 2) 0) / 2

/-- The distinct values of a list in first-occurrence order — the key order a
pandas hashtable-based `value_counts` produces before sorting.  (`dedup`
keeps the last occurrence of each value, so deduplicating the reversed list
and reversing back keeps exactly the first occurrences, in order.) -/
def firstKeys {α : Type} [DecidableEq α] (l : List α) : List α :=
  (l.reverse.dedup).reverse

/-- pandas `Series.value_counts()`: occurrence counts of the distinct values,
keys gathered in first-occurrence order and then stably sorted by count
descending (ties therefore remain in first-occurrence order). -/
def value_counts {α : Type} [DecidableEq α] (l : List α) : List (α × ℕ) :=
  List.insertionSort (fun p q => q.2 ≤ p.2)
    ((firstKeys l).map (fun k => (k, l.count k)))

/-- pandas `value_counts().sort_index()`: the same counts re-indexed by
ascending key; since each entry's count is determined by its key, this is the
count function tabulated over the ascending sort of the distinct keys. -/
def value_counts_sort_index (l : List ℚ) : List (ℚ × ℕ) :=
  (List.insertionSort (fun a b : ℚ => a ≤ b) (firstKeys l)).map
    (fun k => (k, l.count k))

/-- One row of the rental table after the column standardization of
`process_leje_data` (src/generate_dashboard.py lines 311-334): the canonical
columns `Adresse`, `By`, `Lat`, `Lng`, `Areal`, `Leje/m2`, `Årsleje`,
`Liggedage`, `Antal værelser`, `Leje/måned`, `Opførelsesår`, `Boligtype`;
cells that may be NaN are `Option`s. -/
structure LejeRow where
  adresse : Option String
  city : Option String
  lat : Option ℚ
  lng : Option ℚ
  areal : Option ℚ
  lejeM2 : Option ℚ
  aarsleje : Option ℚ
  liggedage : Option ℚ
  vaerelser : Option ℚ
  lejeMaaned : Option ℚ
  opfoerelsesaar : Option ℚ
  boligtype : Option String
  deriving DecidableEq, Repr

/-- One emitted rental listing (src/generate_dashboard.py lines 357-371). -/
structure Bolig where
  adresse : String
  city : String
  lat : ℚ
  lng : ℚ
  areal : ℤ
  lejeM2 : ℤ
  lejeManed : ℤ
  liggedage : ℤ
  vaerelser : ℤ
  opfoerelsesaar : Option ℤ
  boligtype : String
  deriving DecidableEq, Repr

/-- Lines 336-338: `if 'Leje/måned' not in df.columns: df['Leje/måned'] =
df['Årsleje'] / 12`.  The flag reflects the column-presence test; absent
column means every row's `lejeMaaned` gets the derived value (NaN yearly rent
gives NaN). -/
def addMonthly (hasMonthlyCol : Bool) (t : List LejeRow) : List LejeRow :=
  if hasMonthlyCol then t
  else t.map (fun r => { r with lejeMaaned := r.aarsleje.map (fun y => y / 12) })

/-- Line 350: membership in the `dropna` subset — all required standardized
fields present. -/
def lejeRequired (r : LejeRow) : Bool :=
  r.adresse.isSome && r.city.isSome && r.lat.isSome && r.lng.isSome &&
  r.areal.isSome && r.lejeM2.isSome && r.aarsleje.isSome &&
  r.liggedage.isSome && r.vaerelser.isSome

/-- Lines 357-371: conversion of one cleaned row to a listing record.  It is
applied only to rows that survived `dropna`, where every required field is
present; `getD` supplies an irrelevant default for the impossible missing
case.  The monthly rent is recomputed as `int(row['Årsleje'] / 12)` — the
`Leje/måned` column is not read here. -/
def rowToBolig (r : LejeRow) : Bolig :=
  { adresse := r.adresse.getD (""),
    city := r.city.getD (""),
    lat := r.lat.getD 0,
    lng := r.lng.getD 0,
    areal := pyInt (r.areal.getD 0),
    lejeM2 := pyInt (r.lejeM2.getD 0),
    lejeManed := pyInt (r.aarsleje.getD 0 / 12),
    liggedage := pyInt (r.liggedage.getD 0),
    vaerelser := pyInt (r.vaerelser.getD 0),
    opfoerelsesaar := r.opfoerelsesaar.map pyInt,
    boligtype := r.boligtype.getD ("Ikke angivet") }

/-- The aggregate statistics of the rental pipeline
(src/generate_dashboard.py lines 373-386). -/
structure LejeStats where
  total_boliger : ℕ
  gns_leje_m2 : ℤ
  gns_areal : ℤ
  gns_leje : ℤ
  median_leje : ℤ
  center_lat : ℚ
  center_lng : ℚ
  vaerelser_data : List (ℤ × ℕ)
  by_data : List (String × ℕ)
  deriving DecidableEq, Repr

/-- Lines 373-386, computed over the cleaned table. -/
def lejeStats (cleaned : List LejeRow) : LejeStats :=
  { total_boliger := cleaned.length,
    gns_leje_m2 := pyInt (meanQ (cleaned.map (fun r => r.lejeM2.getD 0))),
    gns_areal := pyInt (meanQ (cleaned.map (fun r => r.areal.getD 0))),
    gns_leje := pyInt (meanQ (cleaned.map (fun r => r.aarsleje.getD 0 / 12))),
    median_leje := pyInt (medianQ (cleaned.map (fun r => r.aarsleje.getD 0 / 12))),
    center_lat := meanQ (cleaned.map (fun r => r.lat.getD 0)),
    center_lng := meanQ (cleaned.map (fun r => r.lng.getD 0)),
    vaerelser_data := (value_counts_sort_index
        (cleaned.map (fun r => r.vaerelser.getD 0))).map
      (fun kv => (pyInt kv.1, kv.2)),
    by_data := value_counts (cleaned.map (fun r => r.city.getD (""))) }

/-- The observable outcome of the rental pipeline: the table handed to the
three chart-rendering calls (lines 340-346), the cleaned table (line 350),
the dropped-row count (lines 349-353), the listing records (lines 356-371)
and the aggregate statistics (lines 373-386). -/
structure LejeResult where
  renderTable : List LejeRow
  cleanedTable : List LejeRow
  droppedRows : ℕ
  boliger : List Bolig
  stats : LejeStats
  deriving DecidableEq, Repr

/-- `process_leje_data` from the standardized table onward
(src/generate_dashboard.py lines 336-402), preserving the source's step
order: derive `Leje/måned` if the column is absent, render the three charts
from the current table, then `dropna` on the required fields, then build
listings and statistics from the cleaned table. -/
def process_leje_data (hasMonthlyCol : Bool) (t : List LejeRow) : LejeResult :=
  let t1 := addMonthly hasMonthlyCol t
  let cleaned := t1.filter lejeRequired
  { renderTable := t1,
    cleanedTable := cleaned,
    droppedRows := t1.length - cleaned.length,
    boliger := cleaned.map rowToBolig,
    stats := lejeStats cleaned }

/-- The exceptions the ownership pipeline can raise after standardization:
`attributeError` when geocoding a missing trade name (pandas stores the
missing cell as a float NaN and `geocode_address` calls `address.lower()` on
it), and `valueError` when the statistics step runs on an empty cleaned
table (line 617: `int()` of the NaN mean of an empty series). -/
inductive PyError where
  | attributeError
  | valueError
  deriving DecidableEq, Repr

/-- One row of the ownership table after sheet merging and column
standardization in `process_ejer_data` (src/generate_dashboard.py lines
418-515 and 534-580): trade name, coordinates (possibly merged from the
`Enheder` sheet), area, price, price per m2, room count, the already
formatted `Handelsdato_str`, usage type and construction year.  `city` holds
the computed `By` column; it is (re)assigned by `ejerByStep` before any read,
mirroring the column assignment at line 531. -/
structure EjerRow where
  handelsnavn : Option String
  lat : Option ℚ
  lng : Option ℚ
  enhedsareal : Option ℚ
  pris : Option ℚ
  prisM2 : Option ℚ
  vaerelser : Option ℚ
  handelsdatoStr : String
  anvendelse : Option String
  opfoerelsesaar : Option ℚ
  city : String
  deriving DecidableEq, Repr

/-- One application of `geocode_address` inside
`df[name_col].apply(geocode_address)` (line 520): a present cell geocodes,
a missing cell raises. -/
def geocode_cell : Option String → Except PyError (ℚ × ℚ)
  | none => Except.error PyError.attributeError
  | some s => Except.ok (geocode_address s)

/-- Lines 517-527: if the `lat`/`lng` columns are absent or any latitude is
missing, geocode every row's trade name (which raises on any missing trade
name), then create the absent coordinate columns from the geocodes and fill
the holes of present ones (`fillna`). -/
def ejerGeocodeStep (hasLatCol hasLngCol : Bool) (t : List EjerRow) :
    Except PyError (List EjerRow) :=
  if hasLatCol && hasLngCol && t.all (fun r => r.lat.isSome) then Except.ok t
  else do
    let coords ← t.mapM (fun r => geocode_cell r.handelsnavn)
    Except.ok ((t.zip coords).map (fun p =>
      { p.1 with
        lat := (if hasLatCol then p.1.lat else none).orElse (fun _ => some p.2.1),
        lng := (if hasLngCol then p.1.lng else none).orElse (fun _ => some p.2.2) }))

/-- Line 531: `df['By'] = df[name_col].apply(parse_city_from_handelsnavn)`;
never missing, since the parser always returns a string. -/
def ejerByStep (t : List EjerRow) : List EjerRow :=
  t.map (fun r => { r with city := parse_city_from_handelsnavn r.handelsnavn })

/-- Line 592: membership in the ownership `dropna` subset.  The subset also
names the `By` column, but `By` is never missing, so it filters nothing. -/
def ejerRequired (r : EjerRow) : Bool :=
  r.handelsnavn.isSome && r.lat.isSome && r.lng.isSome &&
  r.enhedsareal.isSome && r.pris.isSome && r.prisM2.isSome &&
  r.vaerelser.isSome

/-- One emitted ownership listing (src/generate_dashboard.py lines 599-613). -/
structure EjerBolig where
  handelsnavn : String
  city : String
  lat : ℚ
  lng : ℚ
  areal : ℤ
  pris : ℤ
  prisM2 : ℤ
  vaerelser : ℤ
  handelsdato : String
  anvendelse : String
  opfoerelsesaar : Option ℤ
  deriving DecidableEq, Repr

/-- Lines 599-613: conversion of one cleaned ownership row to a listing. -/
def rowToEjerBolig (r : EjerRow) : EjerBolig :=
  { handelsnavn := r.handelsnavn.getD (""),
    city := r.city,
    lat := r.lat.getD 0,
    lng := r.lng.getD 0,
    areal := pyInt (r.enhedsareal.getD 0),
    pris := pyInt (r.pris.getD 0),
    prisM2 := pyInt (r.prisM2.getD 0),
    vaerelser := pyInt (r.vaerelser.getD 0),
    handelsdato := r.handelsdatoStr,
    anvendelse := r.anvendelse.getD ("Ikke angivet"),
    opfoerelsesaar := r.opfoerelsesaar.map pyInt }

/-- The aggregate statistics of the ownership pipeline
(src/generate_dashboard.py lines 615-628). -/
structure EjerStats where
  total_boliger : ℕ
  gns_pris_m2 : ℤ
  gns_areal : ℤ
  gns_pris : ℤ
  median_pris : ℤ
  center_lat : ℚ
  center_lng : ℚ
  vaerelser_data : List (ℤ × ℕ)
  by_data : List (String × ℕ)
  deriving DecidableEq, Repr

/-- Lines 615-628, computed over the cleaned table.  The pipeline reaches
this computation only with a nonempty cleaned table: on an empty one the
source raises `ValueError` at line 617 (`int()` of a NaN mean), which
`process_ejer_data` models before constructing the result, so the value this
function takes on `[]` is never exhibited by the pipeline. -/
def ejerStats (cleaned : List EjerRow) : EjerStats :=
  { total_boliger := cleaned.length,
    gns_pris_m2 := pyInt (meanQ (cleaned.map (fun r => r.prisM2.getD 0))),
    gns_areal := pyInt (meanQ (cleaned.map (fun r => r.enhedsareal.getD 0))),
    gns_pris := pyInt (meanQ (cleaned.map (fun r => r.pris.getD 0))),
    median_pris := pyInt (medianQ (cleaned.map (fun r => r.pris.getD 0))),
    center_lat := meanQ (cleaned.map (fun r => r.lat.getD 0)),
    center_lng := meanQ (cleaned.map (fun r => r.lng.getD 0)),
    vaerelser_data := (value_counts_sort_index
        (cleaned.map (fun r => r.vaerelser.getD 0))).map
      (fun kv => (pyInt kv.1, kv.2)),
    by_data := value_counts (cleaned.map (fun r => r.city)) }

/-- The observable outcome of the ownership pipeline: the table handed to the
three chart-rendering calls (lines 582-588), the cleaned table (line 592),
the dropped-row count, the listings and the statistics. -/
structure EjerResult where
  renderTable : List EjerRow
  cleanedTable : List EjerRow
  droppedRows : ℕ
  boliger : List EjerBolig
  stats : EjerStats
  deriving DecidableEq, Repr

/-- `process_ejer_data` from the merged/standardized table onward
(src/generate_dashboard.py lines 517-644), preserving the source's step
order: geocode where coordinates are absent (which can raise), derive `By`,
render the three charts from the current table, then `dropna` on the
required fields, then build listings and statistics from the cleaned table.
When the cleaned table is empty the statistics step raises `ValueError`
(line 617: `int()` of the NaN mean of an empty series), so a successful run
requires a nonempty cleaned table. -/
def process_ejer_data (hasLatCol hasLngCol : Bool) (t : List EjerRow) :
    Except PyError EjerResult := do
  let t1 ← ejerGeocodeStep hasLatCol hasLngCol t
  let t2 := ejerByStep t1
  let cleaned := t2.filter ejerRequired
  if cleaned.isEmpty then Except.error PyError.valueError
  else
    Except.ok
      { renderTable := t2,
        cleanedTable := cleaned,
        droppedRows := t2.length - cleaned.length,
        boliger := cleaned.map rowToEjerBolig,
        stats := ejerStats cleaned }

/-- A fully populated rental row for concrete checks. -/
def lejeRowFull : LejeRow :=
  { adresse := some ("A-gade 1"), city := some ("Aby"),
    lat := some 55, lng := some 12, areal := some 80,
    lejeM2 := some 1500, aarsleje := some 120000, liggedage := some 30,
    vaerelser := some 3, lejeMaaned := none, opfoerelsesaar := none,
    boligtype := none }

/-- A rental row whose area cell is missing, so the cleaning step drops it. -/
def lejeRowMissingAreal : LejeRow := { lejeRowFull with areal := none }

/-- C1 counterexample: with one row missing its area, the table passed to the
chart-rendering calls is not the cleaned table — rendering happens before the
row-cleaning step, on the uncleaned table. -/
theorem spec_c1_counterexample :
    (process_leje_data true [lejeRowFull, lejeRowMissingAreal]).renderTable ≠
      (process_leje_data true [lejeRowFull, lejeRowMissingAreal]).cleanedTable := by
  intro h
  have hlen := congrArg List.length h
  revert hlen
  decide

/-- Helper: reducing a successful bind in the `Except` monad. -/
theorem except_bind_ok {ε α β : Type} (a : α) (f : α → Except ε β) :
    Bind.bind (Except.ok a) f = f a := rfl

/-- C1 (amended): in both pipelines the chart-rendering requests come before
the row-cleaning step; the renderer receives the standardized, uncleaned
table, the cleaned table equals the renderer's table filtered by the
required-field predicate, and the two coincide exactly when every rendered
row has all required fields. -/
theorem spec_c1_amended :
    (∀ (hm : Bool) (t : List LejeRow),
      (process_leje_data hm t).cleanedTable =
        (process_leje_data hm t).renderTable.filter lejeRequired ∧
      ((process_leje_data hm t).renderTable = (process_leje_data hm t).cleanedTable ↔
        ∀ r ∈ (process_leje_data hm t).renderTable, lejeRequired r = true)) ∧
    (∀ (hl hg : Bool) (t : List EjerRow) (out : EjerResult),
      process_ejer_data hl hg t = Except.ok out →
      out.cleanedTable = out.renderTable.filter ejerRequired ∧
      (out.renderTable = out.cleanedTable ↔
        ∀ r ∈ out.renderTable, ejerRequired r = true)) := by
  constructor
  · intro hm t
    have h1 : (process_leje_data hm t).cleanedTable =
        (process_leje_data hm t).renderTable.filter lejeRequired := rfl
    refine ⟨h1, ?_⟩
    rw [h1, eq_comm]
    exact List.filter_eq_self
  · intro hl hg t out hok
    cases hstep : ejerGeocodeStep hl hg t with
    | error e =>
      rw [process_ejer_data, hstep] at hok
      cases hok
    | ok t1 =>
      rw [process_ejer_data, hstep, except_bind_ok] at hok
      dsimp only at hok
      split at hok
      · cases hok
      · cases hok
        refine ⟨rfl, ?_⟩
        rw [eq_comm]
        exact List.filter_eq_self

/-- A fully populated ownership row for concrete checks. -/
def ejerRowFull : EjerRow :=
  { handelsnavn := some ("B-gade 2, 2200 København N"),
    lat := some 55, lng := some 12, enhedsareal := some 70,
    pris := some 2000000, prisM2 := some 28000, vaerelser := some 3,
    handelsdatoStr := "2024-01-01", anvendelse := none,
    opfoerelsesaar := none, city := "" }

/-- A throwaway ownership result used only as a `getD` default. -/
def ejerResultDefault : EjerResult :=
  { renderTable := [], cleanedTable := [], droppedRows := 0,
    boliger := [], stats := ejerStats [] }

/-- The concrete successful run of the ownership pipeline on `ejerRowFull`. -/
def ejerOutEx : EjerResult :=
  ((process_ejer_data true true [ejerRowFull]).toOption).getD ejerResultDefault

/-- Witness for C1 (amended), at a concrete successful ownership run. -/
theorem spec_c1_witness :
    ejerOutEx.cleanedTable = ejerOutEx.renderTable.filter ejerRequired :=
  (spec_c1_amended.2 true true [ejerRowFull] ejerOutEx rfl).1

/-- An ownership row with a missing trade name and no coordinates. -/
def ejerRowNoName : EjerRow :=
  { handelsnavn := none, lat := none, lng := none, enhedsareal := some 70,
    pris := some 2000000, prisM2 := some 28000, vaerelser := some 3,
    handelsdatoStr := "2024-01-01", anvendelse := none,
    opfoerelsesaar := none, city := "" }

/-- C2: the ownership pipeline on a table without coordinate columns and with
one row whose trade-name cell is missing fails with `AttributeError` inside
geocoding instead of silently dropping the row.  When coordinates are already
present, geocoding is skipped and the very same row is silently dropped: on a
two-row table it is removed while the complete row survives, the run succeeds
with one dropped row; on a one-row table the drop leaves the cleaned table
empty and the run then fails in the statistics step with `ValueError`, never
with an exception from the row-filtering itself. -/
theorem spec_c2_bug :
    process_ejer_data false false [ejerRowNoName] =
      Except.error PyError.attributeError ∧
    (process_ejer_data true true
        [{ ejerRowNoName with lat := some 55, lng := some 12 }, ejerRowFull]).map
      (fun out => (out.cleanedTable.map (fun r => r.handelsnavn), out.droppedRows)) =
      Except.ok ([some ("B-gade 2, 2200 København N")], 1) ∧
    process_ejer_data true true
        [{ ejerRowNoName with lat := some 55, lng := some 12 }] =
      Except.error PyError.valueError := by
  exact ⟨rfl, rfl, rfl⟩

/-- C8: for a cleaned rental row with non-negative yearly rent `y`, the
emitted listing's monthly rent is the floor of `y / 12` — `int()` truncation
of the float division. -/
theorem spec_c8 (r : LejeRow) (y : ℚ) (hy : r.aarsleje = some y) (h0 : 0 ≤ y) :
    (rowToBolig r).lejeManed = ⌊y / 12⌋ := by
  have hfield : (rowToBolig r).lejeManed = pyInt (r.aarsleje.getD 0 / 12) := rfl
  rw [hfield, hy]
  simp only [Option.getD_some]
  unfold pyInt
  rw [if_pos (div_nonneg h0 (by norm_num))]

/-- A rental row with yearly rent 100000. -/
def lejeRow100 : LejeRow := { lejeRowFull with aarsleje := some 100000 }

/-- Witness for C8: yearly 120000 gives monthly 10000; yearly 100000 gives
monthly 8333 (truncated, not rounded). -/
theorem spec_c8_witness :
    (rowToBolig lejeRowFull).lejeManed = 10000 ∧
    (rowToBolig lejeRow100).lejeManed = 8333 := by
  constructor
  · rw [spec_c8 lejeRowFull 120000 rfl (by norm_num)]
    rw [Int.floor_eq_iff]
    norm_num
  · rw [spec_c8 lejeRow100 100000 rfl (by norm_num)]
    rw [Int.floor_eq_iff]
    norm_num

/-- Helper: filtering and converting rental rows is unaffected by a row
transformation that preserves the required-field test and the conversion. -/
theorem filter_map_congr (t : List LejeRow) (g : LejeRow → LejeRow)
    (h1 : ∀ r, lejeRequired (g r) = lejeRequired r)
    (h2 : ∀ r, rowToBolig (g r) = rowToBolig r) :
    ((t.map g).filter lejeRequired).map rowToBolig =
      (t.filter lejeRequired).map rowToBolig := by
  induction t with
  | nil => rfl
  | cons a l ih =>
    simp only [List.map_cons, List.filter_cons, h1 a]
    by_cases h : lejeRequired a = true
    · simp only [h, if_pos, List.map_cons, h2 a, ih]
    · simp only [h, if_neg, ih]
      simp [h, ih]

/-- C10: every emitted rental listing's monthly rent is computed from the
yearly-rent column as `int(yearly / 12)`; the listings are unchanged under
arbitrary reassignment of the explicit monthly-rent column (and under its
presence flag), so an explicit `Leje/måned` column is never used for the
per-listing output. -/
theorem spec_c10 :
    (∀ (hm₁ hm₂ : Bool) (t : List LejeRow) (f : LejeRow → Option ℚ),
      (process_leje_data hm₁ (t.map (fun r => { r with lejeMaaned := f r }))).boliger =
        (process_leje_data hm₂ t).boliger) ∧
    (∀ r : LejeRow, (rowToBolig r).lejeManed = pyInt (r.aarsleje.getD 0 / 12)) := by
  constructor
  · intro hm₁ hm₂ t f
    have key : ∀ (hm : Bool) (s : List LejeRow),
        (process_leje_data hm s).boliger =
          ((addMonthly hm s).filter lejeRequired).map rowToBolig :=
      fun _ _ => rfl
    have norm : ∀ (hm : Bool) (s : List LejeRow),
        ((addMonthly hm s).filter lejeRequired).map rowToBolig =
          (s.filter lejeRequired).map rowToBolig := by
      intro hm s
      cases hm with
      | true => rfl
      | false => exact filter_map_congr s _ (fun r => rfl) (fun r => rfl)
    rw [key, key, norm, norm]
    exact filter_map_congr t _ (fun r => rfl) (fun r => rfl)
  · intro r
    rfl

/-- Helper: the mean depends only on the multiset of values. -/
theorem meanQ_perm {l₁ l₂ : List ℚ} (h : l₁.Perm l₂) : meanQ l₁ = meanQ l₂ := by
  unfold meanQ
  rw [h.sum_eq, h.length_eq]

/-- Helper: ascending sorts of permuted rational lists are equal. -/
theorem insertionSort_eq_of_perm {l₁ l₂ : List ℚ} (h : l₁.Perm l₂) :
    List.insertionSort (fun a b : ℚ => a ≤ b) l₁ =
      List.insertionSort (fun a b : ℚ => a ≤ b) l₂ := by
  haveI : IsAntisymm ℚ (fun a b : ℚ => a ≤ b) := ⟨fun _ _ => le_antisymm⟩
  have hp : (List.insertionSort (fun a b : ℚ => a ≤ b) l₁).Perm
      (List.insertionSort (fun a b : ℚ => a ≤ b) l₂) :=
    (List.perm_insertionSort _ l₁).trans (h.trans (List.perm_insertionSort _ l₂).symm)
  exact List.eq_of_perm_of_sorted hp (List.sorted_insertionSort _ l₁)
    (List.sorted_insertionSort _ l₂)

/-- Helper: the median depends only on the multiset of values. -/
theorem medianQ_perm {l₁ l₂ : List ℚ} (h : l₁.Perm l₂) : medianQ l₁ = medianQ l₂ := by
  unfold medianQ
  rw [insertionSort_eq_of_perm h]

/-- Helper: membership in the first-occurrence key list is membership. -/
theorem mem_firstKeys {α : Type} [DecidableEq α] (l : List α) (x : α) :
    x ∈ firstKeys l ↔ x ∈ l := by
  unfold firstKeys
  simp [List.mem_dedup]

/-- Helper: the first-occurrence key list has no duplicates. -/
theorem nodup_firstKeys {α : Type} [DecidableEq α] (l : List α) :
    (firstKeys l).Nodup := by
  unfold firstKeys
  simp only [List.nodup_reverse]
  exact List.nodup_dedup _

/-- Helper: first-occurrence key lists of permuted lists are permuted. -/
theorem firstKeys_perm {α : Type} [DecidableEq α] {l₁ l₂ : List α} (h : l₁.Perm l₂) :
    (firstKeys l₁).Perm (firstKeys l₂) := by
  unfold firstKeys
  have h1 : (l₁.reverse).Perm l₂.reverse :=
    (List.reverse_perm l₁).trans (h.trans (List.reverse_perm l₂).symm)
  exact ((List.reverse_perm _).trans h1.dedup).trans (List.reverse_perm _).symm

/-- Helper: occurrence counts are permutation-invariant. -/
theorem count_perm {α : Type} [DecidableEq α] {l₁ l₂ : List α} (h : l₁.Perm l₂)
    (a : α) : l₁.count a = l₂.count a :=
  h.count_eq a

/-- Helper: `value_counts` of permuted lists are permutations of one another
(the entry order among tied counts can differ, nothing else). -/
theorem value_counts_perm {α : Type} [DecidableEq α] {l₁ l₂ : List α}
    (h : l₁.Perm l₂) : (value_counts l₁).Perm (value_counts l₂) := by
  unfold value_counts
  have hf : (fun k : α => (k, l₁.count k)) = (fun k => (k, l₂.count k)) := by
    funext k
    rw [count_perm h]
  have hmap : ((firstKeys l₁).map (fun k => (k, l₁.count k))).Perm
      ((firstKeys l₂).map (fun k => (k, l₂.count k))) := by
    rw [hf]
    exact (firstKeys_perm h).map _
  exact ((List.perm_insertionSort _ _).trans hmap).trans
    (List.perm_insertionSort _ _).symm

/-- Helper: the key-sorted count table is permutation-invariant outright. -/
theorem value_counts_sort_index_perm {l₁ l₂ : List ℚ} (h : l₁.Perm l₂) :
    value_counts_sort_index l₁ = value_counts_sort_index l₂ := by
  unfold value_counts_sort_index
  rw [insertionSort_eq_of_perm (firstKeys_perm h)]
  refine List.map_congr_left ?_
  intro k _
  rw [count_perm h]

/-- C9 counterexample: two cleaned two-row tables that are permutations of
each other produce different city histograms — the two cities tie at count 1
and `value_counts` keeps tied entries in first-occurrence order, so the
aggregate statistics are not identical under permutation. -/
theorem spec_c9_counterexample :
    ([lejeRowFull, { lejeRowFull with city := some ("Bby") }].Perm
      [{ lejeRowFull with city := some ("Bby") }, lejeRowFull]) ∧
    (lejeStats [lejeRowFull, { lejeRowFull with city := some ("Bby") }]).by_data ≠
      (lejeStats [{ lejeRowFull with city := some ("Bby") }, lejeRowFull]).by_data := by
  constructor
  · exact List.Perm.swap _ _ _
  · decide

/-- C9 (amended): permuting the cleaned table leaves every aggregate
statistic of both pipelines unchanged — count, the four integer aggregates,
the map center and the room-count histogram are identical, and the city
histogram is unchanged as a multiset of (city, count) entries — but the
order of city-histogram entries is only guaranteed up to permutation
(tied counts follow first-occurrence order). -/
theorem spec_c9_amended :
    (∀ t₁ t₂ : List LejeRow, t₁.Perm t₂ →
      { lejeStats t₁ with by_data := [] } = { lejeStats t₂ with by_data := [] } ∧
      (lejeStats t₁).by_data.Perm ((lejeStats t₂).by_data)) ∧
    (∀ t₁ t₂ : List EjerRow, t₁.Perm t₂ →
      { ejerStats t₁ with by_data := [] } = { ejerStats t₂ with by_data := [] } ∧
      (ejerStats t₁).by_data.Perm ((ejerStats t₂).by_data)) := by
  constructor
  · intro t₁ t₂ h
    constructor
    · simp only [lejeStats]
      congr 1
      · exact h.length_eq
      · exact congrArg pyInt (meanQ_perm (h.map _))
      · exact congrArg pyInt (meanQ_perm (h.map _))
      · exact congrArg pyInt (meanQ_perm (h.map _))
      · exact congrArg pyInt (medianQ_perm (h.map _))
      · exact meanQ_perm (h.map _)
      · exact meanQ_perm (h.map _)
      · rw [value_counts_sort_index_perm (h.map _)]
    · simp only [lejeStats]
      exact value_counts_perm (h.map _)
  · intro t₁ t₂ h
    constructor
    · simp only [ejerStats]
      congr 1
      · exact h.length_eq
      · exact congrArg pyInt (meanQ_perm (h.map _))
      · exact congrArg pyInt (meanQ_perm (h.map _))
      · exact congrArg pyInt (meanQ_perm (h.map _))
      · exact congrArg pyInt (medianQ_perm (h.map _))
      · exact meanQ_perm (h.map _)
      · exact meanQ_perm (h.map _)
      · rw [value_counts_sort_index_perm (h.map _)]
    · simp only [ejerStats]
      exact value_counts_perm (h.map _)

/-- Witness for C9 (amended) at a concrete permuted pair of cleaned tables. -/
theorem spec_c9_witness :
    { lejeStats [lejeRowFull, lejeRow100] with by_data := [] } =
      { lejeStats [lejeRow100, lejeRowFull] with by_data := [] } :=
  (spec_c9_amended.1 _ _ (List.Perm.swap lejeRow100 lejeRowFull [])).1
